import Mathlib

/-!
Verification development for the FreeCAD-Brick generator scripts
(regular_brick.py, regular_bigbrick.py, holed_brick.py, pocket_brick.py).

The Python scripts drive the FreeCAD kernel through named document objects;
here each geometric object is embedded as a record of its exact dimensions and
placement (millimetre values are exact decimals, modelled in ℚ), and each
generator function becomes a pure Lean function over those records.  Python
integers are modelled as ℤ, `range(n)` as `List.range n.toNat`, and the
module-level dictionaries (`bricks`, `holed_bricks`) as association lists
threaded through the functions that mutate them.
-/

/-- A FreeCAD `Part::Box`: `Length`, `Width`, `Height` plus the translation
component of its `Placement` (rotation is always the identity in these
scripts). -/
structure Box where
  x : ℚ
  y : ℚ
  z : ℚ
  px : ℚ
  py : ℚ
  pz : ℚ
deriving DecidableEq

/-- A boolean-solid build tree: `Part::Box` leaves combined by `Part::Cut`
(base, tool) and `Part::Fuse` (base, tool). -/
inductive Solid where
  | box : Box → Solid
  | cut : Solid → Solid → Solid
  | fuse : Solid → Solid → Solid
deriving DecidableEq

/-- A placed copy of the stud template: lattice cell indices `i`, `j`
(recorded in the object's Label by the scripts) and the translation of its
`Placement`. -/
structure Stud where
  i : ℕ
  j : ℕ
  xpos : ℚ
  ypos : ℚ
  zpos : ℚ
deriving DecidableEq

/-- A placed copy of the underside-ring template (rings are placed at z = 0);
`height` is the template height shared by every ring of one brick. -/
structure BrickRing where
  i : ℕ
  j : ℕ
  xpos : ℚ
  ypos : ℚ
  height : ℚ
deriving DecidableEq

/-- A placed copy of the bigbrick cone template. -/
structure BrickCone where
  i : ℕ
  j : ℕ
  xpos : ℚ
  ypos : ℚ
  zpos : ℚ
deriving DecidableEq

/-- Outcome of a top-level `make_*` call: the orientation guard prints an
error string and returns early, or the brick is fully built. -/
inductive MakeResult (α : Type) where
  | rejected : String → MakeResult α
  | made : α → MakeResult α
deriving DecidableEq

/-- `true` when a `make_*` call got past validation and built its brick. -/
def MakeResult.isMade {α : Type} : MakeResult α → Bool
  | .rejected _ => false
  | .made _ => true

/-- The decimal digit characters plus the minus sign: every character a
`str(int)` call can produce. -/
def numChars : List Char := ['0', '1', '2', '3', '4', '5', '6', '7', '8', '9', '-']

/-- Character for one decimal digit (`d` is taken mod 10 by the caller). -/
def digitChar (d : ℕ) : Char :=
  if d = 0 then '0' else if d = 1 then '1' else if d = 2 then '2' else if d = 3 then '3'
  else if d = 4 then '4' else if d = 5 then '5' else if d = 6 then '6' else if d = 7 then '7'
  else if d = 8 then '8' else '9'

/-- Fuelled digit expansion of a natural number, most significant first. -/
def natDigitsAux : ℕ → ℕ → List Char
  | 0, _ => []
  | fuel + 1, n =>
    if n < 10 then [digitChar n] else natDigitsAux fuel (n / 10) ++ [digitChar (n % 10)]

/-- Decimal digit characters of a natural number. -/
def natDigits (n : ℕ) : List Char := natDigitsAux (n + 1) n

/-- Model of Python's `str` on an integer. -/
def py_str (n : ℤ) : String :=
  if n < 0 then ⟨'-' :: natDigits n.natAbs⟩ else ⟨natDigits n.toNat⟩


namespace regular_brick

/-! Embedding of `regular_brick.py`. -/

def stud_radius_mm : ℚ := 2.475
def stud_center_spacing_mm : ℚ := 8.000
def stud_height_mm : ℚ := 1.700
def plate_height_mm : ℚ := 3.200
def plate_width_mm : ℚ := 7.800
def gap_mm : ℚ := 0.200
def brick_height_mm : ℚ := 9.600
def brick_width_mm : ℚ := 7.800
def wall_thickness_mm : ℚ := 1.500
def top_thickness_mm : ℚ := 1.000
def ring_radius_outer_mm : ℚ := 3.250
def ring_radius_inner_mm : ℚ := 2.500

def export_directory : String := "/home/paul/FreeCAD/generated_bricks/"

/-- The module-level `bricks` dictionary: `name -> (studs_x, studs_y, plate_z)`.
Python dict assignment is modelled by consing, so `List.lookup` sees the most
recent binding first, matching dict lookup. -/
abbrev Registry := List (String × ℤ × ℤ × ℤ)

/-- `convert_studs_to_mm(studs)`. -/
def convert_studs_to_mm (studs : ℤ) : ℚ :=
  (studs * brick_width_mm) + ((studs - 1) * gap_mm)

/-- `name_a_brick(studs_x, studs_y, plate_z)`: derives the name and records
`bricks[name] = (studs_x, studs_y, plate_z)`.  `str(int(plate_z))` and
`str(plate_z)` coincide because `plate_z` is an integer. -/
def name_a_brick (studs_x studs_y plate_z : ℤ) (bricks : Registry) :
    String × Registry :=
  let xy : String := py_str studs_x ++ "x" ++ py_str studs_y ++ "x" ++ py_str plate_z
  let name : String :=
    if plate_z = 1 then "plate_" ++ xy
    else if plate_z = 2 then "plick_" ++ xy
    else if plate_z % 3 = 0 then
      if plate_z = 3 then "brick_" ++ xy
      else if plate_z = 6 then "doublebrick_" ++ xy
      else if plate_z = 9 then "triplebrick_" ++ xy
      else if plate_z = 12 then "quadruplebrick_" ++ xy
      else "xbrick_" ++ xy
    else "xplate_" ++ xy
  (name, (name, (studs_x, studs_y, plate_z)) :: bricks)

/-- The hull of `create_brick_hull`: `Part::Cut` of the two boxes, with the
registry lookup `bricks[brick_name]` replaced by passing the registered tuple
`(x, y, z)` directly. -/
structure Hull where
  outer_prism : Box
  inner_prism : Box
deriving DecidableEq

/-- `create_brick_hull`. -/
def create_brick_hull (x y z : ℤ) : Hull :=
  let outer_width : ℚ := convert_studs_to_mm x
  let outer_length : ℚ := convert_studs_to_mm y
  let outer_height : ℚ := z * plate_height_mm
  let inner_width : ℚ := outer_width - (2 * wall_thickness_mm)
  let inner_length : ℚ := outer_length - (2 * wall_thickness_mm)
  let inner_height : ℚ := outer_height - top_thickness_mm
  { outer_prism := ⟨outer_width, outer_length, outer_height, 0, 0, 0⟩
    inner_prism :=
      ⟨inner_width, inner_length, inner_height, wall_thickness_mm, wall_thickness_mm, 0⟩ }

/-- `add_brick_studs`: one stud per lattice cell `(i, j)`. -/
def add_brick_studs (x y z : ℤ) : List Stud :=
  let height : ℚ := z * plate_height_mm
  (List.range x.toNat).flatMap fun i =>
    (List.range y.toNat).map fun j =>
      { i := i, j := j
        xpos := ((i : ℚ) + 1) * stud_center_spacing_mm - stud_center_spacing_mm / 2 - gap_mm / 2
        ypos := ((j : ℚ) + 1) * stud_center_spacing_mm - stud_center_spacing_mm / 2 - gap_mm / 2
        zpos := height }

/-- `add_brick_rings`: the outer loop of the source runs `j` over
`range(x - 1)` and the inner loop runs `i` over `range(y - 1)`; `xpos` uses
`j` and `ypos` uses `i`. -/
def add_brick_rings (x y z : ℤ) : List BrickRing :=
  let height : ℚ := z * plate_height_mm
  (List.range (x - 1).toNat).flatMap fun j =>
    (List.range (y - 1).toNat).map fun i =>
      { i := i, j := j
        xpos := (brick_width_mm + gap_mm) * ((j : ℚ) + 1) - gap_mm / 2
        ypos := (brick_width_mm + gap_mm) * ((i : ℚ) + 1) - gap_mm / 2
        height := height - top_thickness_mm }

/-- Everything `make_brick` builds for one accepted call. -/
structure MadeBrick where
  name : String
  hull : Hull
  studs : List Stud
  rings : List BrickRing
  exported : String
deriving DecidableEq

/-- The message printed by `make_brick`'s orientation guard (Python `print`
with comma-separated arguments inserts single spaces). -/
def make_brick_error (studs_x studs_y : ℤ) : String :=
  "ERROR: make_brick(): studs_y ( " ++ py_str studs_y ++
    " ) cannot be smaller than studs_x ( " ++ py_str studs_x ++ " )"

/-- `make_brick(studs_x, studs_y, plate_z)`: guard, then name/register, then
hull, studs, rings, and the `.stl` export path. -/
def make_brick (bricks : Registry) (studs_x studs_y plate_z : ℤ) :
    Registry × MakeResult MadeBrick :=
  if studs_y < studs_x then
    (bricks, .rejected (make_brick_error studs_x studs_y))
  else
    let named := name_a_brick studs_x studs_y plate_z bricks
    let brick_name := named.1
    (named.2, .made
      { name := brick_name
        hull := create_brick_hull studs_x studs_y plate_z
        studs := add_brick_studs studs_x studs_y plate_z
        rings := add_brick_rings studs_x studs_y plate_z
        exported := export_directory ++ brick_name ++ ".stl" })

end regular_brick

namespace regular_bigbrick

/-! Embedding of `regular_bigbrick.py` (Duplo-scale bricks). -/

def studring_radius_mm : ℚ := 4.800
def studring_height_mm : ℚ := 4.400
def studring_wall_mm : ℚ := 1.200
def studring_center_spacing_mm : ℚ := 16.000
def bigplate_height_mm : ℚ := 9.600
def bigbrick_height_mm : ℚ := 19.200
def bigbrick_width_mm : ℚ := 15.800
def gap_mm : ℚ := 0.200
def bigwall_thickness_mm : ℚ := 3.000
def bigtop_thickness_mm : ℚ := 2.000
def ring_radius_outer_mm : ℚ := 6.700
def ring_radius_inner_mm : ℚ := 5.400

def export_directory : String := "/home/paul/FreeCAD_generated/"

/-- The module-level `bigbricks` dictionary. -/
abbrev Registry := List (String × ℤ × ℤ × ℤ)

/-- `convert_studs_to_mm(studs)` at the bigbrick pitch. -/
def convert_studs_to_mm (studs : ℤ) : ℚ :=
  (studs * bigbrick_width_mm) + ((studs - 1) * gap_mm)

/-- `name_a_bigbrick(studs_x, studs_y, plate_z)`: same classifier as
`name_a_brick`, recording into `bigbricks`. -/
def name_a_bigbrick (studs_x studs_y plate_z : ℤ) (bigbricks : Registry) :
    String × Registry :=
  let xy : String := py_str studs_x ++ "x" ++ py_str studs_y ++ "x" ++ py_str plate_z
  let name : String :=
    if plate_z = 1 then "plate_" ++ xy
    else if plate_z = 2 then "plick_" ++ xy
    else if plate_z % 3 = 0 then
      if plate_z = 3 then "brick_" ++ xy
      else if plate_z = 6 then "doublebrick_" ++ xy
      else if plate_z = 9 then "triplebrick_" ++ xy
      else if plate_z = 12 then "quadruplebrick_" ++ xy
      else "xbrick_" ++ xy
    else "xplate_" ++ xy
  (name, (name, (studs_x, studs_y, plate_z)) :: bigbricks)

/-- The hull of `create_brick_hull` (bigbrick variant). -/
structure Hull where
  outer_prism : Box
  inner_prism : Box
deriving DecidableEq

/-- `create_brick_hull` (bigbrick variant). -/
def create_brick_hull (x y z : ℤ) : Hull :=
  let outer_width : ℚ := convert_studs_to_mm x
  let outer_length : ℚ := convert_studs_to_mm y
  let outer_height : ℚ := z * bigplate_height_mm
  let inner_width : ℚ := outer_width - (2 * bigwall_thickness_mm)
  let inner_length : ℚ := outer_length - (2 * bigwall_thickness_mm)
  let inner_height : ℚ := outer_height - bigtop_thickness_mm
  { outer_prism := ⟨outer_width, outer_length, outer_height, 0, 0, 0⟩
    inner_prism :=
      ⟨inner_width, inner_length, inner_height,
        bigwall_thickness_mm, bigwall_thickness_mm, 0⟩ }

/-- `add_brick_studs` (bigbrick variant, studring copies). -/
def add_brick_studs (x y z : ℤ) : List Stud :=
  let height : ℚ := z * bigplate_height_mm
  (List.range x.toNat).flatMap fun i =>
    (List.range y.toNat).map fun j =>
      { i := i, j := j
        xpos := ((i : ℚ) + 1) * studring_center_spacing_mm
          - studring_center_spacing_mm / 2 - gap_mm / 2
        ypos := ((j : ℚ) + 1) * studring_center_spacing_mm
          - studring_center_spacing_mm / 2 - gap_mm / 2
        zpos := height }

/-- `add_brick_cones`. -/
def add_brick_cones (x y z : ℤ) : List BrickCone :=
  let height : ℚ := z * bigplate_height_mm - 9 - bigtop_thickness_mm
  (List.range (x - 1).toNat).flatMap fun i =>
    (List.range (y - 1).toNat).map fun j =>
      { i := i, j := j
        xpos := (bigbrick_width_mm + gap_mm) * ((i : ℚ) + 1) - gap_mm / 2
        ypos := (bigbrick_width_mm + gap_mm) * ((j : ℚ) + 1) - gap_mm / 2
        zpos := height }

/-- `add_brick_rings` (bigbrick variant: outer loop `i` over `range(x-1)`,
inner loop `j` over `range(y-1)`). -/
def add_brick_rings (x y z : ℤ) : List BrickRing :=
  let height : ℚ := z * bigplate_height_mm
  (List.range (x - 1).toNat).flatMap fun i =>
    (List.range (y - 1).toNat).map fun j =>
      { i := i, j := j
        xpos := (bigbrick_width_mm + gap_mm) * ((i : ℚ) + 1) - gap_mm / 2
        ypos := (bigbrick_width_mm + gap_mm) * ((j : ℚ) + 1) - gap_mm / 2
        height := height - bigtop_thickness_mm }

/-- Everything `make_bigbrick` builds for one accepted call. -/
structure MadeBigbrick where
  name : String
  hull : Hull
  studs : List Stud
  cones : List BrickCone
  rings : List BrickRing
  exported : String
deriving DecidableEq

/-- `make_bigbrick(studs_x, studs_y, plate_z)`: identical guard and error text
to `make_brick` (the source reuses the `make_brick()` label in the message). -/
def make_bigbrick (bigbricks : Registry) (studs_x studs_y plate_z : ℤ) :
    Registry × MakeResult MadeBigbrick :=
  if studs_y < studs_x then
    (bigbricks, .rejected (regular_brick.make_brick_error studs_x studs_y))
  else
    let named := name_a_bigbrick studs_x studs_y plate_z bigbricks
    let brick_name := named.1
    (named.2, .made
      { name := brick_name
        hull := create_brick_hull studs_x studs_y plate_z
        studs := add_brick_studs studs_x studs_y plate_z
        cones := add_brick_cones studs_x studs_y plate_z
        rings := add_brick_rings studs_x studs_y plate_z
        exported := export_directory ++ brick_name ++ ".stl" })

end regular_bigbrick

namespace holed_brick

/-! Embedding of `holed_brick.py`. -/

def stud_radius_mm : ℚ := 2.475
def stud_center_spacing_mm : ℚ := 8.000
def stud_height_mm : ℚ := 1.700
def plate_height_mm : ℚ := 3.200
def plate_width_mm : ℚ := 7.800
def gap_mm : ℚ := 0.200
def brick_height_mm : ℚ := 9.600
def brick_width_mm : ℚ := 7.800
def wall_thickness_mm : ℚ := 1.500
def top_thickness_mm : ℚ := 1.000
def ring_radius_outer_mm : ℚ := 3.250
def ring_radius_inner_mm : ℚ := 2.500

def export_directory : String := "/home/paul/FreeCAD/generated_bricks/"

/-- The module-level `holed_bricks` dictionary:
`name -> (side_x, side_y, hole_x, hole_y, plate_z)`. -/
abbrev Registry := List (String × ℤ × ℤ × ℤ × ℤ × ℤ)

/-- `convert_studs_to_mm(studs)`. -/
def convert_studs_to_mm (studs : ℤ) : ℚ :=
  (studs * brick_width_mm) + ((studs - 1) * gap_mm)

/-- `name_a_holed_brick(side_x, side_y, hole_x, hole_y, plate_z)`. -/
def name_a_holed_brick (side_x side_y hole_x hole_y plate_z : ℤ)
    (holed_bricks : Registry) : String × Registry :=
  let side_name : String := py_str side_x ++ "x" ++ py_str side_y
  let hole_name : String := "__hole_" ++ py_str hole_x ++ "x" ++ py_str hole_y
  let height_name : String := "__height_" ++ py_str plate_z
  let tail : String := side_name ++ hole_name ++ height_name
  let name : String :=
    if plate_z = 1 then "holedplate_" ++ tail
    else if plate_z = 2 then "holedplick_" ++ tail
    else if plate_z % 3 = 0 then
      if plate_z = 3 then "holedbrick_" ++ tail
      else if plate_z = 6 then "holeddoublebrick_" ++ tail
      else if plate_z = 9 then "holedtriplebrick_" ++ tail
      else if plate_z = 12 then "holedquadruplebrick_" ++ tail
      else "holedxbrick_" ++ tail
    else "holedxplate_" ++ tail
  (name, (name, (side_x, side_y, hole_x, hole_y, plate_z)) :: holed_bricks)

/-- `create_holed_brick_hull`, as the boolean-solid tree it assembles:
`Fuse(Cut(Cut(outer_prism, inner_prism), outer_hole),
      Cut(outer_hole, inner_hole))`. -/
def create_holed_brick_hull (side_x side_y hole_x hole_y z : ℤ) : Solid :=
  let studs_x : ℤ := hole_x + (side_x * 2)
  let studs_y : ℤ := hole_y + (side_y * 2)
  let outer_width : ℚ := convert_studs_to_mm studs_x
  let outer_length : ℚ := convert_studs_to_mm studs_y
  let outer_height : ℚ := z * plate_height_mm
  let outer_prism : Box := ⟨outer_width, outer_length, outer_height, 0, 0, 0⟩
  let inner_width : ℚ := outer_width - (2 * wall_thickness_mm)
  let inner_length : ℚ := outer_length - (2 * wall_thickness_mm)
  let inner_height : ℚ := outer_height - top_thickness_mm
  let inner_prism : Box :=
    ⟨inner_width, inner_length, inner_height, wall_thickness_mm, wall_thickness_mm, 0⟩
  let solid : Solid := .cut (.box outer_prism) (.box inner_prism)
  let outer_hole_width : ℚ := convert_studs_to_mm hole_x
  let outer_hole_length : ℚ := convert_studs_to_mm hole_y
  let offset_x : ℚ := convert_studs_to_mm side_x + gap_mm
  let offset_y : ℚ := convert_studs_to_mm side_y + gap_mm
  let outer_hole : Box :=
    ⟨outer_hole_width, outer_hole_length, outer_height, offset_x, offset_y, 0⟩
  let holed_solid : Solid := .cut solid (.box outer_hole)
  let inner_hole_width : ℚ := outer_hole_width - (2 * wall_thickness_mm)
  let inner_hole_length : ℚ := outer_hole_length - (2 * wall_thickness_mm)
  let inner_hole : Box :=
    ⟨inner_hole_width, inner_hole_length, outer_height,
      offset_x + wall_thickness_mm + gap_mm, offset_y + wall_thickness_mm + gap_mm, 0⟩
  let hole_walls : Solid := .cut (.box outer_hole) (.box inner_hole)
  .fuse holed_solid hole_walls

/-- The stud-inclusion test of `add_holed_brick_studs`:
`(i < side_x or i >= side_x + hole_x) or (j < side_y or j >= side_y + hole_y)`. -/
def holed_stud_cond (side_x side_y hole_x hole_y : ℤ) (i j : ℕ) : Bool :=
  (decide ((i : ℤ) < side_x) || decide (side_x + hole_x ≤ (i : ℤ)))
    || (decide ((j : ℤ) < side_y) || decide (side_y + hole_y ≤ (j : ℤ)))

/-- `add_holed_brick_studs`. -/
def add_holed_brick_studs (side_x side_y hole_x hole_y z : ℤ) : List Stud :=
  let studs_x : ℤ := hole_x + (side_x * 2)
  let studs_y : ℤ := hole_y + (side_y * 2)
  let height : ℚ := z * plate_height_mm
  (List.range studs_x.toNat).flatMap fun i =>
    ((List.range studs_y.toNat).filter fun j =>
        holed_stud_cond side_x side_y hole_x hole_y i j).map fun j =>
      { i := i, j := j
        xpos := ((i : ℚ) + 1) * stud_center_spacing_mm - stud_center_spacing_mm / 2 - gap_mm / 2
        ypos := ((j : ℚ) + 1) * stud_center_spacing_mm - stud_center_spacing_mm / 2 - gap_mm / 2
        zpos := height }

/-- The ring-inclusion test of `add_holed_brick_rings`:
`(i < side_x - 1 or i >= side_x + hole_x) or (j < side_y - 1 or j >= side_y + hole_y)`. -/
def holed_ring_cond (side_x side_y hole_x hole_y : ℤ) (i j : ℕ) : Bool :=
  (decide ((i : ℤ) < side_x - 1) || decide (side_x + hole_x ≤ (i : ℤ)))
    || (decide ((j : ℤ) < side_y - 1) || decide (side_y + hole_y ≤ (j : ℤ)))

/-- `add_holed_brick_rings`. -/
def add_holed_brick_rings (side_x side_y hole_x hole_y z : ℤ) : List BrickRing :=
  let studs_x : ℤ := hole_x + (side_x * 2)
  let studs_y : ℤ := hole_y + (side_y * 2)
  let height : ℚ := z * plate_height_mm
  (List.range (studs_x - 1).toNat).flatMap fun i =>
    ((List.range (studs_y - 1).toNat).filter fun j =>
        holed_ring_cond side_x side_y hole_x hole_y i j).map fun j =>
      { i := i, j := j
        xpos := (brick_width_mm + gap_mm) * ((i : ℚ) + 1) - gap_mm / 2
        ypos := (brick_width_mm + gap_mm) * ((j : ℚ) + 1) - gap_mm / 2
        height := height - top_thickness_mm }

/-- Everything `make_holed_brick` builds; the function has no validation
guard, so every call produces a full build. -/
structure MadeHoledBrick where
  name : String
  hull : Solid
  studs : List Stud
  rings : List BrickRing
  exported : String
deriving DecidableEq

/-- `make_holed_brick(hole_x, hole_y, side_x, side_y, plate_z)`. -/
def make_holed_brick (holed_bricks : Registry) (hole_x hole_y side_x side_y plate_z : ℤ) :
    Registry × MadeHoledBrick :=
  let named := name_a_holed_brick side_x side_y hole_x hole_y plate_z holed_bricks
  let brick_name := named.1
  (named.2,
    { name := brick_name
      hull := create_holed_brick_hull side_x side_y hole_x hole_y plate_z
      studs := add_holed_brick_studs side_x side_y hole_x hole_y plate_z
      rings := add_holed_brick_rings side_x side_y hole_x hole_y plate_z
      exported := export_directory ++ brick_name ++ ".stl" })

end holed_brick

namespace pocket_brick

/-! Embedding of `pocket_brick.py`. -/

def stud_radius_mm : ℚ := 2.475
def stud_center_spacing_mm : ℚ := 8.000
def stud_height_mm : ℚ := 1.700
def plate_height_mm : ℚ := 3.200
def plate_width_mm : ℚ := 7.800
def gap_mm : ℚ := 0.200
def brick_height_mm : ℚ := 9.600
def brick_width_mm : ℚ := 7.800
def wall_thickness_mm : ℚ := 1.500
def top_thickness_mm : ℚ := 1.000

def export_directory : String := "/home/paul/FreeCAD/generated_pockets/"

/-- `convert_studs_to_mm(studs)`. -/
def convert_studs_to_mm (studs : ℤ) : ℚ :=
  (studs * brick_width_mm) + ((studs - 1) * gap_mm)

/-- The `pocket_tuple` the script threads through its helpers:
`(pocket_name, studs_x, studs_y, inner_height, floor_height)` (heights in
plates). -/
abbrev PocketTuple := String × ℤ × ℤ × ℤ × ℤ

/-- `name_a_pocket(studs_x, studs_y, inner_height, floor_height, inner_studs)`. -/
def name_a_pocket (studs_x studs_y inner_height floor_height : ℤ)
    (inner_studs : Bool) : String :=
  let floor_name : String := "_floor_" ++ py_str floor_height
  let inner_name : String := "_inner_" ++ py_str inner_height
  let size_name : String := "_size_" ++ py_str studs_x ++ "x" ++ py_str studs_y
  let inner_name2 : String := if inner_studs then inner_name ++ "_inner_studs_" else inner_name
  "pocket_" ++ size_name ++ inner_name2 ++ floor_name

/-- The hull of `create_pocket_hull`: `Part::Cut` of the two boxes. -/
structure PocketHull where
  outer_prism : Box
  inner_prism : Box
deriving DecidableEq

/-- `create_pocket_hull(pocket_tuple)`. -/
def create_pocket_hull (pocket_tuple : PocketTuple) : PocketHull :=
  let x : ℤ := pocket_tuple.2.1
  let y : ℤ := pocket_tuple.2.2.1
  let inner_height : ℚ := pocket_tuple.2.2.2.1 * plate_height_mm
  let floor_height : ℚ := pocket_tuple.2.2.2.2 * plate_height_mm
  let outer_height : ℚ := floor_height + inner_height
  let outer_width : ℚ := convert_studs_to_mm x
  let outer_length : ℚ := convert_studs_to_mm y
  let inner_width : ℚ := convert_studs_to_mm (x - 2)
  let inner_length : ℚ := convert_studs_to_mm (y - 2)
  let pocket_wall_mm : ℚ := brick_width_mm + gap_mm
  { outer_prism := ⟨outer_width, outer_length, outer_height, 0, 0, 0⟩
    inner_prism :=
      ⟨inner_width, inner_length, inner_height, pocket_wall_mm, pocket_wall_mm, floor_height⟩ }

/-- The stud-inclusion test of `add_pocket_top_studs`:
`(i < 1 or i > hole_x) or (j < 1 or j > hole_y)` with
`hole_x = studs_x - 2`, `hole_y = studs_y - 2`. -/
def pocket_top_cond (studs_x studs_y : ℤ) (i j : ℕ) : Bool :=
  (decide ((i : ℤ) < 1) || decide (studs_x - 2 < (i : ℤ)))
    || (decide ((j : ℤ) < 1) || decide (studs_y - 2 < (j : ℤ)))

/-- `add_pocket_top_studs(pocket_tuple)`. -/
def add_pocket_top_studs (pocket_tuple : PocketTuple) : List Stud :=
  let studs_x : ℤ := pocket_tuple.2.1
  let studs_y : ℤ := pocket_tuple.2.2.1
  let z : ℤ := pocket_tuple.2.2.2.1 + pocket_tuple.2.2.2.2
  let height : ℚ := z * plate_height_mm
  (List.range studs_x.toNat).flatMap fun i =>
    ((List.range studs_y.toNat).filter fun j =>
        pocket_top_cond studs_x studs_y i j).map fun j =>
      { i := i, j := j
        xpos := ((i : ℚ) + 1) * stud_center_spacing_mm - stud_center_spacing_mm / 2 - gap_mm / 2
        ypos := ((j : ℚ) + 1) * stud_center_spacing_mm - stud_center_spacing_mm / 2 - gap_mm / 2
        zpos := height }

/-- `add_pocket_floor_studs(pocket_tuple)`: an `(x-2) × (y-2)` full grid of
studs at floor height, shifted one cell inward (`(i+2)`/`(j+2)` spacing). -/
def add_pocket_floor_studs (pocket_tuple : PocketTuple) : List Stud :=
  let x : ℤ := pocket_tuple.2.1 - 2
  let y : ℤ := pocket_tuple.2.2.1 - 2
  let z : ℤ := pocket_tuple.2.2.2.2
  let height : ℚ := z * plate_height_mm
  (List.range x.toNat).flatMap fun i =>
    (List.range y.toNat).map fun j =>
      { i := i, j := j
        xpos := ((i : ℚ) + 2) * stud_center_spacing_mm - stud_center_spacing_mm / 2 - gap_mm / 2
        ypos := ((j : ℚ) + 2) * stud_center_spacing_mm - stud_center_spacing_mm / 2 - gap_mm / 2
        zpos := height }

/-- Everything `create_pocket` builds for one call. -/
structure MadePocket where
  name : String
  hull : PocketHull
  top_studs : List Stud
  floor_studs : List Stud
  exported : String
deriving DecidableEq

/-- `create_pocket(studs_x, studs_y, inner_height, floor_height, inner_studs)`. -/
def create_pocket (studs_x studs_y inner_height floor_height : ℤ)
    (inner_studs : Bool) : MadePocket :=
  let pocket_name := name_a_pocket studs_x studs_y inner_height floor_height inner_studs
  let pocket_tuple : PocketTuple := (pocket_name, studs_x, studs_y, inner_height, floor_height)
  { name := pocket_name
    hull := create_pocket_hull pocket_tuple
    top_studs := add_pocket_top_studs pocket_tuple
    floor_studs := if inner_studs then add_pocket_floor_studs pocket_tuple else []
    exported := export_directory ++ pocket_name ++ ".stl" }

end pocket_brick

/-- The spec's family-parameterized conversion contract (§4.1), written from
the spec's words for comparison with the per-family source functions:
`studsToLength(n, pitch, gap) = n*pitch + (n-1)*gap`. -/
def studsToLength (n : ℤ) (pitch gap : ℚ) : ℚ := n * pitch + (n - 1) * gap

/-- Extracts the `outer_hole` box from a holed-brick hull tree
(`Fuse(Cut(_, outer_hole), _)`). -/
def hole_box : Solid → Option Box
  | .fuse (.cut _ (.box b)) _ => some b
  | _ => none

/-! ## Helper lemmas -/

lemma digitChar_mem (d : ℕ) : digitChar d ∈ numChars := by
  unfold digitChar numChars
  split_ifs <;> simp

lemma natDigitsAux_mem :
    ∀ (fuel n : ℕ) (c : Char), c ∈ natDigitsAux fuel n → c ∈ numChars := by
  intro fuel
  induction fuel with
  | zero => intro n c hc; simp [natDigitsAux] at hc
  | succ f ih =>
    intro n c hc
    unfold natDigitsAux at hc
    by_cases h : n < 10
    · simp [h] at hc
      exact hc ▸ digitChar_mem n
    · simp [h, List.mem_append] at hc
      rcases hc with hc | hc
      · exact ih _ _ hc
      · exact hc ▸ digitChar_mem (n % 10)

lemma py_str_mem {n : ℤ} {c : Char} (hc : c ∈ (py_str n).toList) : c ∈ numChars := by
  unfold py_str at hc
  split at hc
  · have hc2 : c = '-' ∨ c ∈ natDigits n.natAbs := by
      simpa using (hc : c ∈ '-' :: natDigits n.natAbs)
    rcases hc2 with rfl | hc2
    · simp [numChars]
    · exact natDigitsAux_mem _ _ _ hc2
  · exact natDigitsAux_mem _ _ _ hc

/-- Length of a `flatMap` over an index range, as a sum of row lengths. -/
lemma length_flatMap_range {α : Type} (n : ℕ) (f : ℕ → List α) :
    ((List.range n).flatMap f).length = ∑ i ∈ Finset.range n, (f i).length := by
  induction n with
  | zero => simp
  | succ n ih => rw [List.range_succ]; simp [ih, Finset.sum_range_succ]

/-- Filtering `range m` by `· < a` keeps exactly `range a` when `a ≤ m`. -/
lemma filter_range_lt (m a : ℕ) (h : a ≤ m) :
    (List.range m).filter (fun j => decide (j < a)) = List.range a := by
  induction m with
  | zero =>
    have : a = 0 := by omega
    subst this
    simp
  | succ m ih =>
    by_cases hm : a ≤ m
    · rw [List.range_succ, List.filter_append, ih hm]
      have : decide (m < a) = false := by simp; omega
      simp [this]
    · have ha : a = m + 1 := by omega
      subst ha
      refine List.filter_eq_self.mpr ?_
      intro c hc
      simp at hc ⊢
      omega

/-- Number of survivors of the window predicate `j < a ∨ c ≤ j` on `range m`. -/
lemma length_filter_window (m a c : ℕ) (hac : a ≤ c) (hcm : c ≤ m) :
    ((List.range m).filter (fun j => decide (j < a) || decide (c ≤ j))).length
      = m - (c - a) := by
  induction m with
  | zero => simp
  | succ m ih =>
    by_cases hc : c ≤ m
    · rw [List.range_succ, List.filter_append]
      have : (decide (m < a) || decide (c ≤ m)) = true := by simp; omega
      simp [this, ih hc]
      omega
    · have hce : c = m + 1 := by omega
      have hpt : ∀ j ∈ List.range (m + 1),
          (decide (j < a) || decide (c ≤ j)) = decide (j < a) := by
        intro j hj
        simp at hj ⊢
        omega
      rw [List.filter_congr hpt, filter_range_lt (m + 1) a (by omega)]
      simp
      omega

/-! ## Claims -/

/-- C1: for every integer n ≥ 1 and every pitch/gap pair, the conversion
returns exactly `n*pitch + (n-1)*gap`, and for n = 1 exactly `pitch`; both
source functions (`regular_brick.convert_studs_to_mm` at the Lego pitch and
`regular_bigbrick.convert_studs_to_mm` at the Duplo pitch) compute this
formula at their family constants. -/
theorem studs_to_mm_formula :
    ∀ n : ℤ, 1 ≤ n →
      (∀ pitch gap : ℚ,
        studsToLength n pitch gap = n * pitch + (n - 1) * gap ∧
        studsToLength 1 pitch gap = pitch) ∧
      regular_brick.convert_studs_to_mm n
        = studsToLength n regular_brick.brick_width_mm regular_brick.gap_mm ∧
      regular_bigbrick.convert_studs_to_mm n
        = studsToLength n regular_bigbrick.bigbrick_width_mm regular_bigbrick.gap_mm ∧
      regular_brick.convert_studs_to_mm 1 = regular_brick.brick_width_mm ∧
      regular_bigbrick.convert_studs_to_mm 1 = regular_bigbrick.bigbrick_width_mm := by
  intro n _
  refine ⟨fun pitch gap => ⟨rfl, by simp [studsToLength]⟩, rfl, rfl, ?_, ?_⟩
  · simp [regular_brick.convert_studs_to_mm]
  · simp [regular_bigbrick.convert_studs_to_mm]

/-- Witness for C1 at n = 3. -/
theorem studs_to_mm_formula_witness :
    (1 : ℤ) ≤ 3 ∧
      ((∀ pitch gap : ℚ,
          studsToLength 3 pitch gap = 3 * pitch + (3 - 1) * gap ∧
          studsToLength 1 pitch gap = pitch) ∧
        regular_brick.convert_studs_to_mm 3
          = studsToLength 3 regular_brick.brick_width_mm regular_brick.gap_mm ∧
        regular_bigbrick.convert_studs_to_mm 3
          = studsToLength 3 regular_bigbrick.bigbrick_width_mm regular_bigbrick.gap_mm ∧
        regular_brick.convert_studs_to_mm 1 = regular_brick.brick_width_mm ∧
        regular_bigbrick.convert_studs_to_mm 1 = regular_bigbrick.bigbrick_width_mm) :=
  ⟨by norm_num, studs_to_mm_formula 3 (by norm_num)⟩

/-- C2: in both `create_brick_hull` variants the inner cavity is smaller than
the outer block by twice the wall thickness in X and Y and by the top
thickness (which differs from the wall thickness) in Z, and the inner block
is placed at `(wall, wall, 0)`. -/
theorem hull_wall_and_top_insets :
    ∀ x y z : ℤ,
      ((regular_brick.create_brick_hull x y z).outer_prism.x
          - (regular_brick.create_brick_hull x y z).inner_prism.x
        = 2 * regular_brick.wall_thickness_mm) ∧
      ((regular_brick.create_brick_hull x y z).outer_prism.y
          - (regular_brick.create_brick_hull x y z).inner_prism.y
        = 2 * regular_brick.wall_thickness_mm) ∧
      ((regular_brick.create_brick_hull x y z).outer_prism.z
          - (regular_brick.create_brick_hull x y z).inner_prism.z
        = regular_brick.top_thickness_mm) ∧
      regular_brick.top_thickness_mm ≠ regular_brick.wall_thickness_mm ∧
      (regular_brick.create_brick_hull x y z).inner_prism.px
        = regular_brick.wall_thickness_mm ∧
      (regular_brick.create_brick_hull x y z).inner_prism.py
        = regular_brick.wall_thickness_mm ∧
      (regular_brick.create_brick_hull x y z).inner_prism.pz = 0 ∧
      ((regular_bigbrick.create_brick_hull x y z).outer_prism.x
          - (regular_bigbrick.create_brick_hull x y z).inner_prism.x
        = 2 * regular_bigbrick.bigwall_thickness_mm) ∧
      ((regular_bigbrick.create_brick_hull x y z).outer_prism.y
          - (regular_bigbrick.create_brick_hull x y z).inner_prism.y
        = 2 * regular_bigbrick.bigwall_thickness_mm) ∧
      ((regular_bigbrick.create_brick_hull x y z).outer_prism.z
          - (regular_bigbrick.create_brick_hull x y z).inner_prism.z
        = regular_bigbrick.bigtop_thickness_mm) ∧
      regular_bigbrick.bigtop_thickness_mm ≠ regular_bigbrick.bigwall_thickness_mm ∧
      (regular_bigbrick.create_brick_hull x y z).inner_prism.px
        = regular_bigbrick.bigwall_thickness_mm ∧
      (regular_bigbrick.create_brick_hull x y z).inner_prism.py
        = regular_bigbrick.bigwall_thickness_mm ∧
      (regular_bigbrick.create_brick_hull x y z).inner_prism.pz = 0 := by
  intro x y z
  refine ⟨by simp [regular_brick.create_brick_hull],
    by simp [regular_brick.create_brick_hull],
    by simp [regular_brick.create_brick_hull],
    by norm_num [regular_brick.top_thickness_mm, regular_brick.wall_thickness_mm],
    rfl, rfl, rfl,
    by simp [regular_bigbrick.create_brick_hull],
    by simp [regular_bigbrick.create_brick_hull],
    by simp [regular_bigbrick.create_brick_hull],
    by norm_num [regular_bigbrick.bigtop_thickness_mm,
      regular_bigbrick.bigwall_thickness_mm],
    rfl, rfl, rfl⟩

/-- C7: an orientation violation (`studs_y < studs_x`) makes `make_brick` and
`make_bigbrick` return immediately with only the printed error: the registry
is unchanged, no name is derived, no geometry is built and no `.stl` path is
produced. -/
theorem orientation_violation_rejected :
    ∀ (bricks : regular_brick.Registry) (bigbricks : regular_bigbrick.Registry)
      (studs_x studs_y plate_z : ℤ), studs_y < studs_x →
      regular_brick.make_brick bricks studs_x studs_y plate_z
          = (bricks, .rejected (regular_brick.make_brick_error studs_x studs_y)) ∧
      regular_bigbrick.make_bigbrick bigbricks studs_x studs_y plate_z
          = (bigbricks, .rejected (regular_brick.make_brick_error studs_x studs_y)) := by
  intro bricks bigbricks studs_x studs_y plate_z h
  constructor
  · simp [regular_brick.make_brick, h]
  · simp [regular_bigbrick.make_bigbrick, h]

/-- Witness for C7 at the spec's scenario `RegularBrick(4,2,3)`. -/
theorem orientation_violation_rejected_witness :
    ((2 : ℤ) < 4) ∧
      regular_brick.make_brick [] 4 2 3
          = ([], .rejected (regular_brick.make_brick_error 4 2)) ∧
      regular_bigbrick.make_bigbrick [] 4 2 3
          = ([], .rejected (regular_brick.make_brick_error 4 2)) :=
  ⟨by norm_num, orientation_violation_rejected [] [] 4 2 3 (by norm_num)⟩

/-- C3 counterexample: a call with zero stud counts (`make_brick(0, 0, 3)`)
and one with negative stud counts (`make_brick(-2, -1, 3)`) both pass the
only guard (`studs_y < studs_x`) and proceed to build geometry, so zero or
negative stud counts are NOT rejected. -/
theorem zero_studs_not_rejected :
    (regular_brick.make_brick [] 0 0 3).2.isMade = true ∧
      (regular_brick.make_brick [] (-2) (-1) 3).2.isMade = true := by
  exact ⟨rfl, rfl⟩

/-- C3 (amended): a `make_brick`/`make_bigbrick` call is rejected before any
geometry is constructed exactly when it violates the orientation rule
`studs_y < studs_x`; zero or negative stud counts are not themselves checked.
`make_holed_brick` has no guard at all and always proceeds to naming and
geometry. -/
theorem rejection_iff_orientation :
    ∀ (bricks : regular_brick.Registry) (bigbricks : regular_bigbrick.Registry)
      (holed_bricks : holed_brick.Registry) (x y z hx hy sx sy hz : ℤ),
      ((regular_brick.make_brick bricks x y z).2.isMade = false ↔ y < x) ∧
      ((regular_bigbrick.make_bigbrick bigbricks x y z).2.isMade = false ↔ y < x) ∧
      (holed_brick.make_holed_brick holed_bricks hx hy sx sy hz).2.hull
        = holed_brick.create_holed_brick_hull sx sy hx hy hz := by
  intro bricks bigbricks holed_bricks x y z hx hy sx sy hz
  refine ⟨?_, ?_, rfl⟩ <;> by_cases h : y < x <;>
    simp [regular_brick.make_brick, regular_bigbrick.make_bigbrick, h, MakeResult.isMade]

/-- C4 counterexample: for the smallest holed brick (side 1×1, hole 1×1,
height 1) the hole block is placed at x = 8 mm, which is
`studsToLength(1) + gap` (7.8 + 0.2); the claim's inset of
`studsToLength(1)` plus HALF a gap would be 7.9 mm ≠ 8 mm. -/
theorem hole_offset_full_gap_not_half :
    (hole_box (holed_brick.create_holed_brick_hull 1 1 1 1 1)).map Box.px = some 8 ∧
      holed_brick.convert_studs_to_mm 1 + holed_brick.gap_mm / 2 ≠ 8 := by
  constructor
  · simp [holed_brick.create_holed_brick_hull, hole_box]
    norm_num [holed_brick.convert_studs_to_mm, holed_brick.gap_mm,
      holed_brick.brick_width_mm]
  · norm_num [holed_brick.convert_studs_to_mm, holed_brick.gap_mm,
      holed_brick.brick_width_mm]

/-- C4 (amended): `create_holed_brick_hull` subtracts a hole block sized
`studsToLength(holeX) × studsToLength(holeY)` placed inset by
`studsToLength(sideX)` plus a FULL gap in X (resp. sideY in Y), and fuses the
hole's own wall (hole outer minus hole inner, the inner inset by a wall
thickness plus another gap) back onto the frame. -/
theorem holed_hull_structure :
    ∀ side_x side_y hole_x hole_y z : ℤ,
      ∃ outer_prism inner_prism : Box,
        holed_brick.create_holed_brick_hull side_x side_y hole_x hole_y z
          = Solid.fuse
              (Solid.cut (Solid.cut (.box outer_prism) (.box inner_prism))
                (.box ⟨holed_brick.convert_studs_to_mm hole_x,
                  holed_brick.convert_studs_to_mm hole_y,
                  z * holed_brick.plate_height_mm,
                  holed_brick.convert_studs_to_mm side_x + holed_brick.gap_mm,
                  holed_brick.convert_studs_to_mm side_y + holed_brick.gap_mm, 0⟩))
              (Solid.cut
                (.box ⟨holed_brick.convert_studs_to_mm hole_x,
                  holed_brick.convert_studs_to_mm hole_y,
                  z * holed_brick.plate_height_mm,
                  holed_brick.convert_studs_to_mm side_x + holed_brick.gap_mm,
                  holed_brick.convert_studs_to_mm side_y + holed_brick.gap_mm, 0⟩)
                (.box ⟨holed_brick.convert_studs_to_mm hole_x
                    - 2 * holed_brick.wall_thickness_mm,
                  holed_brick.convert_studs_to_mm hole_y
                    - 2 * holed_brick.wall_thickness_mm,
                  z * holed_brick.plate_height_mm,
                  holed_brick.convert_studs_to_mm side_x + holed_brick.gap_mm
                    + holed_brick.wall_thickness_mm + holed_brick.gap_mm,
                  holed_brick.convert_studs_to_mm side_y + holed_brick.gap_mm
                    + holed_brick.wall_thickness_mm + holed_brick.gap_mm, 0⟩)) := by
  intro side_x side_y hole_x hole_y z
  exact ⟨_, _, rfl⟩

/-- Length of an unfiltered nested loop: `n` rows of `m` entries. -/
lemma length_flatMap_map {α : Type} (n m : ℕ) (f : ℕ → ℕ → α) :
    ((List.range n).flatMap fun i => (List.range m).map (f i)).length = n * m := by
  rw [length_flatMap_range]
  simp [mul_comm]

/-- C8 counterexample: for the spec's scenario `Pocket(10,16,9,3,True)` the
inner cavity is inset by 8 mm (`brick_width + gap`, one stud pitch), which is
NOT `studsToLength(1) = 7.8` as the claim states. -/
theorem pocket_inset_not_one_stud_length :
    (pocket_brick.create_pocket 10 16 9 3 true).hull.inner_prism.px = 8 ∧
      pocket_brick.convert_studs_to_mm 1 ≠ 8 := by
  constructor
  · simp [pocket_brick.create_pocket, pocket_brick.create_pocket_hull]
    norm_num [pocket_brick.brick_width_mm, pocket_brick.gap_mm]
  · norm_num [pocket_brick.convert_studs_to_mm, pocket_brick.brick_width_mm,
      pocket_brick.gap_mm]

/-- C8 (amended): for `Pocket(studsX, studsY, ih, fh, ...)` with
`studsX, studsY ≥ 2`, the inner block spans
`studsToLength(studsX-2) × studsToLength(studsY-2)`, is inset in X and Y by
exactly `brick_width + gap` = 8 mm (one stud-pitch spacing, i.e.
`studsToLength(1) + gap`, not `studsToLength(1)`) and in Z by the floor
height; and when inner studs are requested, exactly
`(studsX-2)*(studsY-2)` floor studs are placed at floor height. -/
theorem pocket_hull_and_floor_studs :
    ∀ (nm : String) (sx sy ih fh : ℤ), 2 ≤ sx → 2 ≤ sy →
      (pocket_brick.create_pocket_hull (nm, sx, sy, ih, fh)).inner_prism.x
          = pocket_brick.convert_studs_to_mm (sx - 2) ∧
      (pocket_brick.create_pocket_hull (nm, sx, sy, ih, fh)).inner_prism.y
          = pocket_brick.convert_studs_to_mm (sy - 2) ∧
      (pocket_brick.create_pocket_hull (nm, sx, sy, ih, fh)).inner_prism.px
          = pocket_brick.brick_width_mm + pocket_brick.gap_mm ∧
      (pocket_brick.create_pocket_hull (nm, sx, sy, ih, fh)).inner_prism.py
          = pocket_brick.brick_width_mm + pocket_brick.gap_mm ∧
      (pocket_brick.create_pocket_hull (nm, sx, sy, ih, fh)).inner_prism.pz
          = fh * pocket_brick.plate_height_mm ∧
      pocket_brick.brick_width_mm + pocket_brick.gap_mm
          = pocket_brick.convert_studs_to_mm 1 + pocket_brick.gap_mm ∧
      (((pocket_brick.add_pocket_floor_studs (nm, sx, sy, ih, fh)).length : ℤ)
          = (sx - 2) * (sy - 2)) ∧
      (∀ st ∈ pocket_brick.add_pocket_floor_studs (nm, sx, sy, ih, fh),
        st.zpos = fh * pocket_brick.plate_height_mm) ∧
      (pocket_brick.create_pocket sx sy ih fh true).floor_studs
          = pocket_brick.add_pocket_floor_studs
              (pocket_brick.name_a_pocket sx sy ih fh true, sx, sy, ih, fh) := by
  intro nm sx sy ih fh hx hy
  have h1 : (((sx : ℤ) - 2).toNat : ℤ) = sx - 2 := Int.toNat_of_nonneg (by omega)
  have h2 : (((sy : ℤ) - 2).toNat : ℤ) = sy - 2 := Int.toNat_of_nonneg (by omega)
  refine ⟨rfl, rfl, rfl, rfl, rfl,
    by norm_num [pocket_brick.convert_studs_to_mm, pocket_brick.brick_width_mm,
      pocket_brick.gap_mm], ?_, ?_, rfl⟩
  · simp only [pocket_brick.add_pocket_floor_studs]
    rw [length_flatMap_map]
    push_cast
    rw [h1, h2]
  · intro st hst
    simp only [pocket_brick.add_pocket_floor_studs, List.mem_flatMap, List.mem_map] at hst
    obtain ⟨i, _, j, _, rfl⟩ := hst
    rfl

/-- Witness for C8 at the spec's scenario `Pocket(10,16,9,3,True)`:
112 floor studs. -/
theorem pocket_hull_and_floor_studs_witness :
    ((2 : ℤ) ≤ 10) ∧ ((2 : ℤ) ≤ 16) ∧
      (((pocket_brick.add_pocket_floor_studs
          (pocket_brick.name_a_pocket 10 16 9 3 true, 10, 16, 9, 3)).length : ℤ)
        = (10 - 2) * (16 - 2)) :=
  ⟨by norm_num, by norm_num,
    (pocket_hull_and_floor_studs (pocket_brick.name_a_pocket 10 16 9 3 true)
      10 16 9 3 (by norm_num) (by norm_num)).2.2.2.2.2.2.1⟩

/-- C6: `RegularBrick(x, y, z)` with `1 ≤ x ≤ y` places exactly `x*y` studs;
`(x-1)*(y-1)` rings when `x, y ≥ 2`; and no rings when `x < 2` or `y < 2`. -/
theorem brick_stud_ring_counts :
    ∀ x y z : ℤ, 1 ≤ x → x ≤ y →
      (((regular_brick.add_brick_studs x y z).length : ℤ) = x * y) ∧
      (2 ≤ x → 2 ≤ y →
        ((regular_brick.add_brick_rings x y z).length : ℤ) = (x - 1) * (y - 1)) ∧
      ((x < 2 ∨ y < 2) → (regular_brick.add_brick_rings x y z).length = 0) := by
  intro x y z hx hxy
  refine ⟨?_, ?_, ?_⟩
  · simp only [regular_brick.add_brick_studs]
    rw [length_flatMap_map]
    push_cast
    rw [Int.toNat_of_nonneg (by omega : (0 : ℤ) ≤ x),
      Int.toNat_of_nonneg (by omega : (0 : ℤ) ≤ y)]
  · intro h2x h2y
    simp only [regular_brick.add_brick_rings]
    rw [length_flatMap_map]
    push_cast
    rw [Int.toNat_of_nonneg (by omega : (0 : ℤ) ≤ x - 1),
      Int.toNat_of_nonneg (by omega : (0 : ℤ) ≤ y - 1)]
  · intro h
    simp only [regular_brick.add_brick_rings]
    rw [length_flatMap_map]
    rcases h with h | h
    · have hz : (x - 1).toNat = 0 := by omega
      simp [hz]
    · have hz : (y - 1).toNat = 0 := by omega
      simp [hz]

/-- Witness for C6 at the spec's scenario `RegularBrick(2,4,3)`:
8 studs and 3 rings. -/
theorem brick_stud_ring_counts_witness :
    ((1 : ℤ) ≤ 2) ∧ ((2 : ℤ) ≤ 4) ∧
      ((regular_brick.add_brick_studs 2 4 3).length : ℤ) = 2 * 4 ∧
      ((regular_brick.add_brick_rings 2 4 3).length : ℤ) = (2 - 1) * (4 - 1) :=
  ⟨by norm_num, by norm_num,
    (brick_stud_ring_counts 2 4 3 (by norm_num) (by norm_num)).1,
    (brick_stud_ring_counts 2 4 3 (by norm_num) (by norm_num)).2.1
      (by norm_num) (by norm_num)⟩

/-- C10: a pocket's top studs sit exactly on the one-stud-wide rim cells
(`i = 0`, `i = studsX-1`, `j = 0` or `j = studsY-1`), all at height
`(innerHeight + floorHeight) * plate_height`, and there are exactly
`studsX*studsY - (studsX-2)*(studsY-2)` of them. -/
theorem pocket_top_studs_rim :
    ∀ (nm : String) (sx sy ih fh : ℤ), 2 ≤ sx → 2 ≤ sy →
      (∀ st ∈ pocket_brick.add_pocket_top_studs (nm, sx, sy, ih, fh),
        st.zpos = ((ih + fh : ℤ) : ℚ) * pocket_brick.plate_height_mm) ∧
      (∀ i j : ℕ,
        ((∃ st ∈ pocket_brick.add_pocket_top_studs (nm, sx, sy, ih, fh),
            st.i = i ∧ st.j = j)
          ↔ ((i : ℤ) < sx ∧ (j : ℤ) < sy ∧
              (i = 0 ∨ (i : ℤ) = sx - 1 ∨ j = 0 ∨ (j : ℤ) = sy - 1)))) ∧
      (((pocket_brick.add_pocket_top_studs (nm, sx, sy, ih, fh)).length : ℤ)
        = sx * sy - (sx - 2) * (sy - 2)) := by
  intro nm sx sy ih fh hx hy
  have hsx : ((sx.toNat : ℤ)) = sx := Int.toNat_of_nonneg (by omega)
  have hsy : ((sy.toNat : ℤ)) = sy := Int.toNat_of_nonneg (by omega)
  refine ⟨?_, ?_, ?_⟩
  · intro st hst
    simp only [pocket_brick.add_pocket_top_studs, List.mem_flatMap, List.mem_map,
      List.mem_filter, List.mem_range] at hst
    obtain ⟨i, hi, j, hj, rfl⟩ := hst
    rfl
  · intro i j
    constructor
    · rintro ⟨st, hst, rfl, rfl⟩
      simp only [pocket_brick.add_pocket_top_studs, List.mem_flatMap, List.mem_map,
        List.mem_filter, List.mem_range] at hst
      obtain ⟨a, ha, b, ⟨hb, hcond⟩, rfl⟩ := hst
      simp only [pocket_brick.pocket_top_cond, Bool.or_eq_true, decide_eq_true_eq] at hcond
      dsimp only
      refine ⟨by omega, by omega, by omega⟩
    · rintro ⟨hi, hj, hr⟩
      refine ⟨⟨i, j,
        ((i : ℚ) + 1) * pocket_brick.stud_center_spacing_mm
          - pocket_brick.stud_center_spacing_mm / 2 - pocket_brick.gap_mm / 2,
        ((j : ℚ) + 1) * pocket_brick.stud_center_spacing_mm
          - pocket_brick.stud_center_spacing_mm / 2 - pocket_brick.gap_mm / 2,
        (((ih + fh : ℤ)) : ℚ) * pocket_brick.plate_height_mm⟩, ?_, rfl, rfl⟩
      simp only [pocket_brick.add_pocket_top_studs, List.mem_flatMap, List.mem_map,
        List.mem_filter, List.mem_range]
      refine ⟨i, by omega, j, ⟨by omega, ?_⟩, rfl⟩
      simp only [pocket_brick.pocket_top_cond, Bool.or_eq_true, decide_eq_true_eq]
      omega
  · simp only [pocket_brick.add_pocket_top_studs]
    rw [length_flatMap_range, Nat.cast_sum]
    simp only [List.length_map]
    have hrow : ∀ i ∈ Finset.range sx.toNat,
        ((((List.range sy.toNat).filter fun j =>
            pocket_brick.pocket_top_cond sx sy i j).length : ℤ))
          = if i = 0 ∨ (i : ℤ) = sx - 1 then (sy.toNat : ℤ) else 2 := by
      intro i hi
      simp only [Finset.mem_range] at hi
      by_cases hedge : i = 0 ∨ (i : ℤ) = sx - 1
      · rw [if_pos hedge]
        have hall : ∀ j ∈ List.range sy.toNat,
            pocket_brick.pocket_top_cond sx sy i j = true := by
          intro j hj
          simp only [pocket_brick.pocket_top_cond, Bool.or_eq_true, decide_eq_true_eq]
          omega
        rw [List.filter_eq_self.mpr hall]
        simp
      · rw [if_neg hedge]
        have hpt : ∀ j ∈ List.range sy.toNat,
            pocket_brick.pocket_top_cond sx sy i j
              = (decide (j < 1) || decide (sy.toNat - 1 ≤ j)) := by
          intro j hj
          have e1 : decide ((i : ℤ) < 1) = false := by simp; omega
          have e2 : decide (sx - 2 < (i : ℤ)) = false := by simp; omega
          have e3 : decide ((j : ℤ) < 1) = decide (j < 1) := by
            rw [decide_eq_decide]; omega
          have e4 : decide (sy - 2 < (j : ℤ)) = decide (sy.toNat - 1 ≤ j) := by
            rw [decide_eq_decide]; omega
          simp only [pocket_brick.pocket_top_cond]
          rw [e1, e2, e3, e4]
          simp
        rw [List.filter_congr hpt,
          length_filter_window sy.toNat 1 (sy.toNat - 1) (by omega) (by omega)]
        have : sy.toNat - (sy.toNat - 1 - 1) = 2 := by omega
        rw [this]
        norm_num
    rw [Finset.sum_congr rfl hrow, Finset.sum_ite, Finset.sum_const, Finset.sum_const]
    have hfilters : (Finset.range sx.toNat).filter (fun i : ℕ => i = 0 ∨ (i : ℤ) = sx - 1)
        = {0, sx.toNat - 1} := by
      ext i
      simp
      omega
    have hcard1 : ((Finset.range sx.toNat).filter
        (fun i : ℕ => i = 0 ∨ (i : ℤ) = sx - 1)).card = 2 := by
      rw [hfilters, Finset.card_insert_of_not_mem (by simp; omega), Finset.card_singleton]
    have hcard2 : ((Finset.range sx.toNat).filter
        (fun i : ℕ => ¬ (i = 0 ∨ (i : ℤ) = sx - 1))).card = sx.toNat - 2 := by
      have htot := Finset.filter_card_add_filter_neg_card_eq_card
        (s := Finset.range sx.toNat) (fun i : ℕ => i = 0 ∨ (i : ℤ) = sx - 1)
      rw [hcard1, Finset.card_range] at htot
      omega
    rw [hcard1, hcard2]
    simp only [nsmul_eq_mul, Nat.cast_ofNat]
    rw [Nat.cast_sub (by omega : 2 ≤ sx.toNat), hsx, hsy]
    push_cast
    ring

/-- Exact value of the Lego-pitch conversion: `8n - 0.2` millimetres. -/
lemma holed_convert_eq (n : ℤ) :
    holed_brick.convert_studs_to_mm n = 8 * (n : ℚ) - 1 / 5 := by
  simp only [holed_brick.convert_studs_to_mm, holed_brick.brick_width_mm,
    holed_brick.gap_mm]
  norm_num
  ring

/-- C5: for `HoledBrick(sideX, sideY, holeX, holeY, z)` with positive
parameters, exactly the `holeX*holeY` cells with
`sideX ≤ i < sideX+holeX` and `sideY ≤ j < sideY+holeY` carry no stud, and no
placed stud's centre lies inside the hole block's footprint
(`[offset, offset + studsToLength(hole)]` in each axis, with
`offset = studsToLength(side) + gap`). -/
theorem holed_stud_suppression :
    ∀ side_x side_y hole_x hole_y z : ℤ,
      1 ≤ side_x → 1 ≤ side_y → 1 ≤ hole_x → 1 ≤ hole_y →
      (∀ i j : ℕ, (i : ℤ) < hole_x + side_x * 2 → (j : ℤ) < hole_y + side_y * 2 →
        ((¬ ∃ st ∈ holed_brick.add_holed_brick_studs side_x side_y hole_x hole_y z,
            st.i = i ∧ st.j = j)
          ↔ (side_x ≤ (i : ℤ) ∧ (i : ℤ) < side_x + hole_x ∧
              side_y ≤ (j : ℤ) ∧ (j : ℤ) < side_y + hole_y))) ∧
      ((hole_x + side_x * 2) * (hole_y + side_y * 2)
          - ((holed_brick.add_holed_brick_studs side_x side_y hole_x hole_y z).length : ℤ)
        = hole_x * hole_y) ∧
      (∀ st ∈ holed_brick.add_holed_brick_studs side_x side_y hole_x hole_y z,
        ¬ (holed_brick.convert_studs_to_mm side_x + holed_brick.gap_mm ≤ st.xpos ∧
            st.xpos ≤ holed_brick.convert_studs_to_mm side_x + holed_brick.gap_mm
              + holed_brick.convert_studs_to_mm hole_x ∧
            holed_brick.convert_studs_to_mm side_y + holed_brick.gap_mm ≤ st.ypos ∧
            st.ypos ≤ holed_brick.convert_studs_to_mm side_y + holed_brick.gap_mm
              + holed_brick.convert_studs_to_mm hole_y)) := by
  intro side_x side_y hole_x hole_y z hs ht hh hk
  have hmem : ∀ i j : ℕ,
      ((∃ st ∈ holed_brick.add_holed_brick_studs side_x side_y hole_x hole_y z,
          st.i = i ∧ st.j = j)
        ↔ ((i : ℤ) < hole_x + side_x * 2 ∧ (j : ℤ) < hole_y + side_y * 2 ∧
            ((i : ℤ) < side_x ∨ side_x + hole_x ≤ (i : ℤ) ∨
              (j : ℤ) < side_y ∨ side_y + hole_y ≤ (j : ℤ)))) := by
    intro i j
    constructor
    · rintro ⟨st, hst, rfl, rfl⟩
      simp only [holed_brick.add_holed_brick_studs, List.mem_flatMap, List.mem_map,
        List.mem_filter, List.mem_range] at hst
      obtain ⟨a, ha, b, ⟨hb, hcond⟩, rfl⟩ := hst
      simp only [holed_brick.holed_stud_cond, Bool.or_eq_true, decide_eq_true_eq] at hcond
      dsimp only
      refine ⟨by omega, by omega, by omega⟩
    · rintro ⟨hi, hj, hr⟩
      refine ⟨⟨i, j,
        ((i : ℚ) + 1) * holed_brick.stud_center_spacing_mm
          - holed_brick.stud_center_spacing_mm / 2 - holed_brick.gap_mm / 2,
        ((j : ℚ) + 1) * holed_brick.stud_center_spacing_mm
          - holed_brick.stud_center_spacing_mm / 2 - holed_brick.gap_mm / 2,
        (z : ℚ) * holed_brick.plate_height_mm⟩, ?_, rfl, rfl⟩
      simp only [holed_brick.add_holed_brick_studs, List.mem_flatMap, List.mem_map,
        List.mem_filter, List.mem_range]
      refine ⟨i, by omega, j, ⟨by omega, ?_⟩, rfl⟩
      simp only [holed_brick.holed_stud_cond, Bool.or_eq_true, decide_eq_true_eq]
      omega
  refine ⟨?_, ?_, ?_⟩
  · intro i j hi hj
    rw [hmem i j]
    omega
  · simp only [holed_brick.add_holed_brick_studs]
    rw [length_flatMap_range, Nat.cast_sum]
    simp only [List.length_map]
    have hrow : ∀ i ∈ Finset.range (hole_x + side_x * 2).toNat,
        ((List.range (hole_y + side_y * 2).toNat).filter fun j =>
            holed_brick.holed_stud_cond side_x side_y hole_x hole_y i j).length
          = if side_x ≤ (i : ℤ) ∧ (i : ℤ) < side_x + hole_x
            then (hole_y + side_y * 2).toNat - hole_y.toNat
            else (hole_y + side_y * 2).toNat := by
      intro i hi
      simp only [Finset.mem_range] at hi
      by_cases hmid : side_x ≤ (i : ℤ) ∧ (i : ℤ) < side_x + hole_x
      · rw [if_pos hmid]
        have hpt : ∀ j ∈ List.range (hole_y + side_y * 2).toNat,
            holed_brick.holed_stud_cond side_x side_y hole_x hole_y i j
              = (decide (j < side_y.toNat)
                  || decide (side_y.toNat + hole_y.toNat ≤ j)) := by
          intro j hj
          have e1 : decide ((i : ℤ) < side_x) = false := by simp; omega
          have e2 : decide (side_x + hole_x ≤ (i : ℤ)) = false := by simp; omega
          have e3 : decide ((j : ℤ) < side_y) = decide (j < side_y.toNat) := by
            rw [decide_eq_decide]; omega
          have e4 : decide (side_y + hole_y ≤ (j : ℤ))
              = decide (side_y.toNat + hole_y.toNat ≤ j) := by
            rw [decide_eq_decide]; omega
          simp only [holed_brick.holed_stud_cond]
          rw [e1, e2, e3, e4]
          simp
        rw [List.filter_congr hpt,
          length_filter_window (hole_y + side_y * 2).toNat side_y.toNat
            (side_y.toNat + hole_y.toNat) (by omega) (by omega)]
        omega
      · rw [if_neg hmid]
        have hall : ∀ j ∈ List.range (hole_y + side_y * 2).toNat,
            holed_brick.holed_stud_cond side_x side_y hole_x hole_y i j = true := by
          intro j hj
          simp only [holed_brick.holed_stud_cond, Bool.or_eq_true, decide_eq_true_eq]
          omega
        rw [List.filter_eq_self.mpr hall]
        simp
    have hrow2 : ∀ i ∈ Finset.range (hole_x + side_x * 2).toNat,
        (((List.range (hole_y + side_y * 2).toNat).filter fun j =>
            holed_brick.holed_stud_cond side_x side_y hole_x hole_y i j).length : ℤ)
          = if side_x ≤ (i : ℤ) ∧ (i : ℤ) < side_x + hole_x
            then (((hole_y + side_y * 2).toNat - hole_y.toNat : ℕ) : ℤ)
            else (((hole_y + side_y * 2).toNat : ℕ) : ℤ) := by
      intro i hi
      rw [hrow i hi]
      by_cases hmid : side_x ≤ (i : ℤ) ∧ (i : ℤ) < side_x + hole_x
      · rw [if_pos hmid, if_pos hmid]
      · rw [if_neg hmid, if_neg hmid]
    rw [Finset.sum_congr rfl hrow2, Finset.sum_ite, Finset.sum_const, Finset.sum_const]
    have hfilter : (Finset.range (hole_x + side_x * 2).toNat).filter
        (fun i : ℕ => side_x ≤ (i : ℤ) ∧ (i : ℤ) < side_x + hole_x)
          = Finset.Ico side_x.toNat (side_x.toNat + hole_x.toNat) := by
      ext i
      simp [Finset.mem_Ico]
      omega
    have hcard1 : ((Finset.range (hole_x + side_x * 2).toNat).filter
        (fun i : ℕ => side_x ≤ (i : ℤ) ∧ (i : ℤ) < side_x + hole_x)).card
          = hole_x.toNat := by
      rw [hfilter, Nat.card_Ico]
      omega
    have hcard2 : ((Finset.range (hole_x + side_x * 2).toNat).filter
        (fun i : ℕ => ¬ (side_x ≤ (i : ℤ) ∧ (i : ℤ) < side_x + hole_x))).card
          = (hole_x + side_x * 2).toNat - hole_x.toNat := by
      have htot := Finset.filter_card_add_filter_neg_card_eq_card
        (s := Finset.range (hole_x + side_x * 2).toNat)
        (fun i : ℕ => side_x ≤ (i : ℤ) ∧ (i : ℤ) < side_x + hole_x)
      rw [hcard1, Finset.card_range] at htot
      omega
    rw [hcard1, hcard2]
    simp only [nsmul_eq_mul]
    rw [Nat.cast_sub (by omega : hole_y.toNat ≤ (hole_y + side_y * 2).toNat),
      Nat.cast_sub (by omega : hole_x.toNat ≤ (hole_x + side_x * 2).toNat),
      Int.toNat_of_nonneg (by omega : (0 : ℤ) ≤ hole_y + side_y * 2),
      Int.toNat_of_nonneg (by omega : (0 : ℤ) ≤ hole_x + side_x * 2),
      Int.toNat_of_nonneg (by omega : (0 : ℤ) ≤ hole_x),
      Int.toNat_of_nonneg (by omega : (0 : ℤ) ≤ hole_y)]
    ring
  · intro st hst
    simp only [holed_brick.add_holed_brick_studs, List.mem_flatMap, List.mem_map,
      List.mem_filter, List.mem_range] at hst
    obtain ⟨a, ha, b, ⟨hb, hcond⟩, rfl⟩ := hst
    simp only [holed_brick.holed_stud_cond, Bool.or_eq_true, decide_eq_true_eq] at hcond
    dsimp only
    rintro ⟨h1, h2, h3, h4⟩
    simp only [holed_convert_eq] at h1 h2 h3 h4
    simp only [holed_brick.gap_mm, holed_brick.stud_center_spacing_mm] at h1 h2 h3 h4
    norm_num at h1 h2 h3 h4
    rcases hcond with (hc | hc) | (hc | hc)
    · have hQ : (a : ℚ) + 1 ≤ (side_x : ℚ) := by exact_mod_cast hc
      linarith
    · have hQ : (side_x : ℚ) + (hole_x : ℚ) ≤ (a : ℚ) := by exact_mod_cast hc
      linarith
    · have hQ : (b : ℚ) + 1 ≤ (side_y : ℚ) := by exact_mod_cast hc
      linarith
    · have hQ : (side_y : ℚ) + (hole_y : ℚ) ≤ (b : ℚ) := by exact_mod_cast hc
      linarith

/-- Witness for C5 at `HoledBrick(1,1,1,1,3)` (a 3×3 plate with a central
1×1 hole): 8 studs placed out of 9 cells. -/
theorem holed_stud_suppression_witness :
    ((1 : ℤ) ≤ 1) ∧
      ((1 + 1 * 2) * (1 + 1 * 2)
          - ((holed_brick.add_holed_brick_studs 1 1 1 1 3).length : ℤ)
        = 1 * 1) :=
  ⟨le_refl 1,
    (holed_stud_suppression 1 1 1 1 3 (le_refl 1) (le_refl 1)
      (le_refl 1) (le_refl 1)).2.1⟩

/-- Witness for C10 at the spec's scenario `Pocket(10,16,9,3,...)`:
48 rim studs. -/
theorem pocket_top_studs_rim_witness :
    ((2 : ℤ) ≤ 10) ∧ ((2 : ℤ) ≤ 16) ∧
      (((pocket_brick.add_pocket_top_studs ("pocket", 10, 16, 9, 3)).length : ℤ)
        = 10 * 16 - (10 - 2) * (16 - 2)) :=
  ⟨by norm_num, by norm_num,
    (pocket_top_studs_rim "pocket" 10 16 9 3 (by norm_num) (by norm_num)).2.2⟩

/-- `String.toList` distributes over append. -/
lemma toList_append (s t : String) : (s ++ t).toList = s.toList ++ t.toList := by
  simp [String.toList, String.data_append]

/-- A word starting a list occurs in it followed by anything. -/
lemma contains_from_start (u w t : List Char) (h : ∃ r, u ++ r = w) :
    u <:+: (w ++ t) := by
  obtain ⟨r, rfl⟩ := h
  exact ⟨[], r ++ t, by simp⟩

/-- A classifier word that starts the name occurs in the name. -/
lemma contains_word (word w r nm : String) (hnm : nm = w ++ r)
    (hpre : ∃ q, word.toList ++ q = w.toList) :
    word.toList <:+: nm.toList := by
  subst hnm
  rw [toList_append]
  exact contains_from_start _ _ _ hpre

/-- A list headed by `'b'` whose tail has no `'b'` cannot contain "xbrick"
(whose `'b'` would need a preceding `'x'`). -/
lemma not_contains_xbrick {tail : List Char} (hb : 'b' ∉ tail) :
    ¬ ("xbrick".toList <:+: 'b' :: tail) := by
  rintro ⟨s, t, hst⟩
  cases s with
  | nil =>
    rw [List.nil_append] at hst
    have hx : 'x' = 'b' := by
      have := congrArg (List.headI) hst
      simp at this
    simp at hx
  | cons c s2 =>
    rw [List.cons_append, List.cons_append] at hst
    have h2 : s2 ++ "xbrick".toList ++ t = tail := by
      have := congrArg List.tail hst
      simpa using this
    apply hb
    rw [← h2]
    simp [List.mem_append]

/-- `'b'` never occurs in the numeric part of a brick name. -/
lemma b_not_in_xy (x y z : ℤ) :
    'b' ∉ (py_str x ++ "x" ++ py_str y ++ "x" ++ py_str z).toList := by
  intro hmem
  simp only [toList_append, List.mem_append] at hmem
  rcases hmem with ((((hm | hm) | hm) | hm) | hm)
  · exact absurd (py_str_mem hm) (by decide)
  · simp at hm
  · exact absurd (py_str_mem hm) (by decide)
  · simp at hm
  · exact absurd (py_str_mem hm) (by decide)

/-- A word occurring in the head part occurs in the whole list. -/
lemma contains_in_head (u w t : List Char) (h : u <:+: w) : u <:+: w ++ t := by
  obtain ⟨s, r, rfl⟩ := h
  exact ⟨s, r ++ t, by simp⟩

/-- "xbrick" cannot occur around the unique `'b'` of a name when the part
before the `'b'` does not end in `'x'`. -/
lemma not_contains_xbrick_mid (pre tail : List Char)
    (hpre : 'b' ∉ pre) (htail : 'b' ∉ tail)
    (hx : ∀ s : List Char, pre ≠ s ++ ['x']) :
    ¬ ("xbrick".toList <:+: pre ++ 'b' :: tail) := by
  rintro ⟨s, t, hst⟩
  rw [show ("xbrick".toList : List Char) = ['x', 'b', 'r', 'i', 'c', 'k'] from by decide,
    List.append_assoc] at hst
  rcases List.append_eq_append_iff.mp hst with ⟨a2, hpre2, heq⟩ | ⟨c2, hs2, heq⟩
  · subst hpre2
    cases a2 with
    | nil =>
      have hhead := congrArg List.headI heq
      simp at hhead
    | cons c a3 =>
      have hc : 'x' = c := by
        have hhead := congrArg List.headI heq
        simpa using hhead
      subst hc
      cases a3 with
      | nil => exact hx s rfl
      | cons c2 a4 =>
        have hc2 : 'b' = c2 := by
          have htl := congrArg List.tail heq
          have hhead := congrArg List.headI htl
          simpa using hhead
        apply hpre
        rw [← hc2]
        simp
  · cases c2 with
    | nil =>
      have hhead := congrArg List.headI heq
      simp at hhead
    | cons c c3 =>
      apply htail
      have htl := congrArg List.tail heq
      simp at htl
      rw [htl]
      simp

/-- `'b'` never occurs in the size/hole/height part of a holed-brick name. -/
lemma b_not_in_holed_tail (sx sy hx hy z : ℤ) :
    'b' ∉ (py_str sx ++ "x" ++ py_str sy
        ++ ("__hole_" ++ py_str hx ++ "x" ++ py_str hy)
        ++ ("__height_" ++ py_str z)).toList := by
  intro hmem
  simp only [toList_append, List.mem_append] at hmem
  rcases hmem with ((((hm | hm) | hm) | (((hm | hm) | hm) | hm)) | (hm | hm)) <;>
    first
      | exact absurd (py_str_mem hm) (by decide)
      | simp at hm

/-- C9: the naming classifier on `plate_z` for both `name_a_brick` and
`name_a_holed_brick`: 1 → "plate", 2 → "plick", 3 → "brick" (and not
"xbrick"), 6 → "doublebrick", 9 → "triplebrick", 12 → "quadruplebrick", any
other multiple of 3 → "xbrick", everything else → "xplate"; and each call
records `(name, spec)` in its registry. -/
theorem naming_classifier :
    ∀ (x y z sx sy hx hy : ℤ) (bricks : regular_brick.Registry)
      (hbricks : holed_brick.Registry),
      (z = 1 →
        "plate".toList <:+: ((regular_brick.name_a_brick x y z bricks).1).toList) ∧
      (z = 2 →
        "plick".toList <:+: ((regular_brick.name_a_brick x y z bricks).1).toList) ∧
      (z = 3 →
        "brick".toList <:+: ((regular_brick.name_a_brick x y z bricks).1).toList ∧
        ¬ ("xbrick".toList <:+: ((regular_brick.name_a_brick x y z bricks).1).toList)) ∧
      (z = 6 →
        "doublebrick".toList <:+: ((regular_brick.name_a_brick x y z bricks).1).toList) ∧
      (z = 9 →
        "triplebrick".toList <:+: ((regular_brick.name_a_brick x y z bricks).1).toList) ∧
      (z = 12 →
        "quadruplebrick".toList
          <:+: ((regular_brick.name_a_brick x y z bricks).1).toList) ∧
      (z % 3 = 0 → z ≠ 3 → z ≠ 6 → z ≠ 9 → z ≠ 12 →
        "xbrick".toList <:+: ((regular_brick.name_a_brick x y z bricks).1).toList) ∧
      (z ≠ 1 → z ≠ 2 → z % 3 ≠ 0 →
        "xplate".toList <:+: ((regular_brick.name_a_brick x y z bricks).1).toList) ∧
      ((regular_brick.name_a_brick x y z bricks).2.lookup
          (regular_brick.name_a_brick x y z bricks).1 = some (x, y, z)) ∧
      (z = 1 →
        "plate".toList
          <:+: ((holed_brick.name_a_holed_brick sx sy hx hy z hbricks).1).toList) ∧
      (z = 2 →
        "plick".toList
          <:+: ((holed_brick.name_a_holed_brick sx sy hx hy z hbricks).1).toList) ∧
      (z = 3 →
        "brick".toList
          <:+: ((holed_brick.name_a_holed_brick sx sy hx hy z hbricks).1).toList ∧
        ¬ ("xbrick".toList
          <:+: ((holed_brick.name_a_holed_brick sx sy hx hy z hbricks).1).toList)) ∧
      (z = 6 →
        "doublebrick".toList
          <:+: ((holed_brick.name_a_holed_brick sx sy hx hy z hbricks).1).toList) ∧
      (z = 9 →
        "triplebrick".toList
          <:+: ((holed_brick.name_a_holed_brick sx sy hx hy z hbricks).1).toList) ∧
      (z = 12 →
        "quadruplebrick".toList
          <:+: ((holed_brick.name_a_holed_brick sx sy hx hy z hbricks).1).toList) ∧
      (z % 3 = 0 → z ≠ 3 → z ≠ 6 → z ≠ 9 → z ≠ 12 →
        "xbrick".toList
          <:+: ((holed_brick.name_a_holed_brick sx sy hx hy z hbricks).1).toList) ∧
      (z ≠ 1 → z ≠ 2 → z % 3 ≠ 0 →
        "xplate".toList
          <:+: ((holed_brick.name_a_holed_brick sx sy hx hy z hbricks).1).toList) ∧
      (holed_brick.name_a_holed_brick sx sy hx hy z hbricks).2.lookup
          (holed_brick.name_a_holed_brick sx sy hx hy z hbricks).1
        = some (sx, sy, hx, hy, z) := by
  intro x y z sx sy hx hy bricks hbricks
  refine ⟨?_, ?_, ?_, ?_, ?_, ?_, ?_, ?_, ?_, ?_, ?_, ?_, ?_, ?_, ?_, ?_, ?_, ?_⟩
  · rintro rfl
    exact contains_word _ "plate_" (py_str x ++ "x" ++ py_str y ++ "x" ++ py_str 1) _
      (by simp [regular_brick.name_a_brick]) ⟨['_'], by decide⟩
  · rintro rfl
    exact contains_word _ "plick_" (py_str x ++ "x" ++ py_str y ++ "x" ++ py_str 2) _
      (by simp [regular_brick.name_a_brick]) ⟨['_'], by decide⟩
  · rintro rfl
    constructor
    · exact contains_word _ "brick_" (py_str x ++ "x" ++ py_str y ++ "x" ++ py_str 3) _
        (by simp [regular_brick.name_a_brick]) ⟨['_'], by decide⟩
    · have hname : (regular_brick.name_a_brick x y 3 bricks).1
          = "brick_" ++ (py_str x ++ "x" ++ py_str y ++ "x" ++ py_str 3) := by
        simp [regular_brick.name_a_brick]
      rw [hname, toList_append]
      have hsplit : ("brick_".toList : List Char) = 'b' :: "rick_".toList := by decide
      rw [hsplit, List.cons_append]
      apply not_contains_xbrick
      simp only [List.mem_append]
      rintro (hm | hm)
      · simp at hm
      · exact b_not_in_xy x y 3 hm
  · rintro rfl
    exact contains_word _ "doublebrick_" (py_str x ++ "x" ++ py_str y ++ "x" ++ py_str 6) _
      (by simp [regular_brick.name_a_brick]) ⟨['_'], by decide⟩
  · rintro rfl
    exact contains_word _ "triplebrick_" (py_str x ++ "x" ++ py_str y ++ "x" ++ py_str 9) _
      (by simp [regular_brick.name_a_brick]) ⟨['_'], by decide⟩
  · rintro rfl
    exact contains_word _ "quadruplebrick_"
      (py_str x ++ "x" ++ py_str y ++ "x" ++ py_str 12) _
      (by simp [regular_brick.name_a_brick]) ⟨['_'], by decide⟩
  · intro hz3 h3 h6 h9 h12
    have hz1 : z ≠ 1 := by omega
    have hz2 : z ≠ 2 := by omega
    exact contains_word _ "xbrick_" (py_str x ++ "x" ++ py_str y ++ "x" ++ py_str z) _
      (by simp [regular_brick.name_a_brick, hz1, hz2, hz3, h3, h6, h9, h12])
      ⟨['_'], by decide⟩
  · intro hz1 hz2 hz3
    exact contains_word _ "xplate_" (py_str x ++ "x" ++ py_str y ++ "x" ++ py_str z) _
      (by simp [regular_brick.name_a_brick, hz1, hz2, hz3]) ⟨['_'], by decide⟩
  · simp [regular_brick.name_a_brick, List.lookup]
  · rintro rfl
    have hname : (holed_brick.name_a_holed_brick sx sy hx hy 1 hbricks).1
        = "holedplate_" ++ (py_str sx ++ "x" ++ py_str sy
            ++ ("__hole_" ++ py_str hx ++ "x" ++ py_str hy)
            ++ ("__height_" ++ py_str 1)) := by
      simp [holed_brick.name_a_holed_brick]
    rw [hname, toList_append]
    exact contains_in_head _ _ _ (by decide)
  · rintro rfl
    have hname : (holed_brick.name_a_holed_brick sx sy hx hy 2 hbricks).1
        = "holedplick_" ++ (py_str sx ++ "x" ++ py_str sy
            ++ ("__hole_" ++ py_str hx ++ "x" ++ py_str hy)
            ++ ("__height_" ++ py_str 2)) := by
      simp [holed_brick.name_a_holed_brick]
    rw [hname, toList_append]
    exact contains_in_head _ _ _ (by decide)
  · rintro rfl
    have hname : (holed_brick.name_a_holed_brick sx sy hx hy 3 hbricks).1
        = "holedbrick_" ++ (py_str sx ++ "x" ++ py_str sy
            ++ ("__hole_" ++ py_str hx ++ "x" ++ py_str hy)
            ++ ("__height_" ++ py_str 3)) := by
      simp [holed_brick.name_a_holed_brick]
    constructor
    · rw [hname, toList_append]
      exact contains_in_head _ _ _ (by decide)
    · rw [hname, toList_append]
      have hsplit : ("holedbrick_".toList : List Char)
          = "holed".toList ++ 'b' :: "rick_".toList := by decide
      rw [hsplit, List.append_assoc, List.cons_append]
      apply not_contains_xbrick_mid
      · decide
      · simp only [List.mem_append]
        rintro (hm | hm)
        · simp at hm
        · exact b_not_in_holed_tail sx sy hx hy 3 hm
      · intro s hs
        have h2 := congrArg List.getLast? hs
        rw [List.getLast?_concat] at h2
        exact absurd h2 (by decide)
  · rintro rfl
    have hname : (holed_brick.name_a_holed_brick sx sy hx hy 6 hbricks).1
        = "holeddoublebrick_" ++ (py_str sx ++ "x" ++ py_str sy
            ++ ("__hole_" ++ py_str hx ++ "x" ++ py_str hy)
            ++ ("__height_" ++ py_str 6)) := by
      simp [holed_brick.name_a_holed_brick]
    rw [hname, toList_append]
    exact contains_in_head _ _ _ (by decide)
  · rintro rfl
    have hname : (holed_brick.name_a_holed_brick sx sy hx hy 9 hbricks).1
        = "holedtriplebrick_" ++ (py_str sx ++ "x" ++ py_str sy
            ++ ("__hole_" ++ py_str hx ++ "x" ++ py_str hy)
            ++ ("__height_" ++ py_str 9)) := by
      simp [holed_brick.name_a_holed_brick]
    rw [hname, toList_append]
    exact contains_in_head _ _ _ (by decide)
  · rintro rfl
    have hname : (holed_brick.name_a_holed_brick sx sy hx hy 12 hbricks).1
        = "holedquadruplebrick_" ++ (py_str sx ++ "x" ++ py_str sy
            ++ ("__hole_" ++ py_str hx ++ "x" ++ py_str hy)
            ++ ("__height_" ++ py_str 12)) := by
      simp [holed_brick.name_a_holed_brick]
    rw [hname, toList_append]
    exact contains_in_head _ _ _ (by decide)
  · intro hz3 h3 h6 h9 h12
    have hz1 : z ≠ 1 := by omega
    have hz2 : z ≠ 2 := by omega
    have hname : (holed_brick.name_a_holed_brick sx sy hx hy z hbricks).1
        = "holedxbrick_" ++ (py_str sx ++ "x" ++ py_str sy
            ++ ("__hole_" ++ py_str hx ++ "x" ++ py_str hy)
            ++ ("__height_" ++ py_str z)) := by
      simp [holed_brick.name_a_holed_brick, hz1, hz2, hz3, h3, h6, h9, h12]
    rw [hname, toList_append]
    exact contains_in_head _ _ _ (by decide)
  · intro hz1 hz2 hz3
    have hname : (holed_brick.name_a_holed_brick sx sy hx hy z hbricks).1
        = "holedxplate_" ++ (py_str sx ++ "x" ++ py_str sy
            ++ ("__hole_" ++ py_str hx ++ "x" ++ py_str hy)
            ++ ("__height_" ++ py_str z)) := by
      simp [holed_brick.name_a_holed_brick, hz1, hz2, hz3]
    rw [hname, toList_append]
    exact contains_in_head _ _ _ (by decide)
  · simp [holed_brick.name_a_holed_brick, List.lookup]

/-- Witness for C9: concrete classifications for thickness 1, 3, 5 and 6 of
a regular brick and thickness 3 of a holed brick. -/
theorem naming_classifier_witness :
    "plate".toList <:+: ((regular_brick.name_a_brick 2 4 1 []).1).toList ∧
      ("brick".toList <:+: ((regular_brick.name_a_brick 2 4 3 []).1).toList ∧
        ¬ ("xbrick".toList <:+: ((regular_brick.name_a_brick 2 4 3 []).1).toList)) ∧
      "xplate".toList <:+: ((regular_brick.name_a_brick 2 4 5 []).1).toList ∧
      "doublebrick".toList <:+: ((regular_brick.name_a_brick 2 4 6 []).1).toList ∧
      ("brick".toList <:+: ((holed_brick.name_a_holed_brick 1 1 3 3 3 []).1).toList ∧
        ¬ ("xbrick".toList
          <:+: ((holed_brick.name_a_holed_brick 1 1 3 3 3 []).1).toList)) :=
  ⟨(naming_classifier 2 4 1 1 1 3 3 [] []).1 rfl,
    (naming_classifier 2 4 3 1 1 3 3 [] []).2.2.1 rfl,
    (naming_classifier 2 4 5 1 1 3 3 [] []).2.2.2.2.2.2.2.1
      (by norm_num) (by norm_num) (by norm_num),
    (naming_classifier 2 4 6 1 1 3 3 [] []).2.2.2.1 rfl,
    (naming_classifier 2 4 3 1 1 3 3 [] []).2.2.2.2.2.2.2.2.2.2.2.1 rfl⟩
